import Mathlib

/-!
Shallow embedding of the ACL engine from `src/lib.rs` (crate `acl-example`):
a role-based access-control engine storing, per account, a `u128` bitmask of
permissions, with checked/unchecked admin and role grant/revoke operations,
enforcement guards `check_any`/`check_all`, and NEP-297 audit events.

Conventions of the embedding:
* `AccountId` is `String` (NEAR account ids are strings).
* `AclPermissions` (a `u128` bitmask in the source) is a `Nat`; all values
  produced by the code are `< 2^128`, and the bitflags operations
  `contains`/`intersects`/`insert`/`remove` are translated literally, with the
  `u128` complement in `remove` written as XOR against the 128-bit mask.
* The ambient caller (`env::predecessor_account_id()`) is threaded as an
  explicit `pred : AccountId` argument.
* Mutating operations return their result together with the updated `Acl`
  state and the list of events emitted by the call (`env::log_str` appends
  to a log; we collect the appended records).
* `require!`-style aborts in the guards are modelled with `Except String`.
-/

namespace AclExample

abbrev AccountId := String

/-- Source `enum Role { L1, L2, L3 }` — the closed role catalog. -/
inductive Role
  | L1
  | L2
  | L3
deriving DecidableEq, Repr

/-- The `#[repr(u8)]` discriminant of a `Role` (`value as u8`). -/
def Role.ord : Role → Nat
  | .L1 => 0
  | .L2 => 1
  | .L3 => 2

/-- Source `enum AclAdmin { Super, L1, L2, L3 }` — admin permissions for roles. -/
inductive AclAdmin
  | Super
  | L1
  | L2
  | L3
deriving DecidableEq, Repr

/-- The `#[repr(u8)]` discriminant of an `AclAdmin` (`value as u8`). -/
def AclAdmin.ord : AclAdmin → Nat
  | .Super => 0
  | .L1 => 1
  | .L2 => 2
  | .L3 => 3

/-- Source `impl From<Role> for AclAdmin`. -/
def AclAdmin.fromRole : Role → AclAdmin
  | .L1 => .L1
  | .L2 => .L2
  | .L3 => .L3

/-- Source `Role::admin`: the `AclAdmin` variant responsible for a `Role`. -/
def Role.admin (r : Role) : AclAdmin := AclAdmin.fromRole r

/-- Source `AclPermissions`: a `u128` bitmask of permission flags. -/
abbrev AclPermissions := Nat

namespace AclPermissions

def SUPER_ADMIN : AclPermissions := 0b00000001
def L1 : AclPermissions := 0b00000010
def L1_ADMIN : AclPermissions := 0b00000100
def L2 : AclPermissions := 0b00001000
def L2_ADMIN : AclPermissions := 0b00010000
def L3 : AclPermissions := 0b00100000
def L3_ADMIN : AclPermissions := 0b01000000

/-- Source `AclPermissions::empty()`. -/
def empty : AclPermissions := 0

/-- All bits of a `u128`: the value of `!0u128`, used for the `u128`
complement in `remove`. -/
def U128_MASK : Nat := 2 ^ 128 - 1

/-- bitflags `contains`: `(self.bits & other.bits) == other.bits`. -/
def contains (s t : AclPermissions) : Bool := s &&& t == t

/-- bitflags `intersects`: `!(self.bits & other.bits).is_empty()`. -/
def intersects (s t : AclPermissions) : Bool := s &&& t != 0

/-- bitflags `insert`: `self.bits |= other.bits`. -/
def insert (s t : AclPermissions) : AclPermissions := s ||| t

/-- bitflags `remove`: `self.bits &= !other.bits` (complement in `u128`). -/
def remove (s t : AclPermissions) : AclPermissions := s &&& (U128_MASK ^^^ t)

end AclPermissions

/-- Source `MAX_BITFLAG_SHIFT`: `AclPermissions` is `u128`. -/
def MAX_BITFLAG_SHIFT : Nat := 127

/-- Source `impl From<Role> for AclPermissions`: `1u128 << ((value as u8 * 2) + 1)`.
The `require!(shift <= MAX_BITFLAG_SHIFT)` and the `from_bits` unwrap always
succeed for the three catalog roles (shift is 1, 3 or 5), so the embedding is
total. -/
def AclPermissions.fromRole (value : Role) : AclPermissions :=
  1 <<< (value.ord * 2 + 1)

/-- Source `impl From<AclAdmin> for AclPermissions`: `1u128 << (value as u8 * 2)`.
The `require!(shift <= MAX_BITFLAG_SHIFT)` and the `from_bits` unwrap always
succeed for the four variants (shift is 0, 2, 4 or 6), so the embedding is
total. -/
def AclPermissions.fromAclAdmin (value : AclAdmin) : AclPermissions :=
  1 <<< (value.ord * 2)

/-- Source `AclEventId`: events resulting from ACL actions. -/
inductive AclEventId
  | AdminAdded
  | AdminRevoked
  | RoleGranted
  | RoleRevoked
deriving DecidableEq, Repr

/-- Source `AclEventId::name`. -/
def AclEventId.name : AclEventId → String
  | .AdminAdded => "acl_admin_added"
  | .AdminRevoked => "acl_admin_revoked"
  | .RoleGranted => "acl_role_granted"
  | .RoleRevoked => "acl_role_revoked"

/-- A NEP-297 `AclEvent` record (the `standard`/`version` fields are the
constants `"nep279"`/`"1.0.0"` for every event and are omitted; `event` is
`AclEventId::name`, `data` is the `AclEventMetadata` fields). -/
structure AclEvent where
  event : String
  role : Role
  account_id : AccountId
  predecessor : AccountId
deriving DecidableEq, Repr

/-- Source `AclEvent::new_from_env` with the predecessor passed explicitly. -/
def AclEvent.new_from_env (id : AclEventId) (role : Role) (account_id : AccountId)
    (pred : AccountId) : AclEvent :=
  ⟨id.name, role, account_id, pred⟩

/-- Source `struct Acl { permissions: UnorderedMap<AccountId, AclPermissions> }`;
the map is embedded as a partial function from account ids to stored masks. -/
structure Acl where
  permissions : AccountId → Option AclPermissions

/-- Source `Acl::new()`: an empty permissions map. -/
def Acl.new : Acl := ⟨fun _ => none⟩

/-- Source `UnorderedMap::insert(account_id, &permissions)`. -/
def Acl.storePermissions (acl : Acl) (account_id : AccountId) (p : AclPermissions) : Acl :=
  ⟨fun x => if x = account_id then some p else acl.permissions x⟩

/-- Source `Acl::get_or_init_permissions`: the stored mask or the empty set. -/
def Acl.get_or_init_permissions (acl : Acl) (account_id : AccountId) : AclPermissions :=
  match acl.permissions account_id with
  | some permissions => permissions
  | none => AclPermissions.empty

/-- Source `Acl::is_admin`: no stored entry means `false`; otherwise the mask must
contain `SUPER_ADMIN` or the role's admin flag. -/
def Acl.is_admin (acl : Acl) (role : Role) (account_id : AccountId) : Bool :=
  match acl.permissions account_id with
  | some permissions =>
      permissions.contains AclPermissions.SUPER_ADMIN ||
        permissions.contains (AclPermissions.fromAclAdmin role.admin)
  | none => false

/-- Source `Acl::has_role`: no stored entry means `false`; otherwise the mask must
contain the role's grant flag. -/
def Acl.has_role (acl : Acl) (role : Role) (account_id : AccountId) : Bool :=
  match acl.permissions account_id with
  | some permissions => permissions.contains (AclPermissions.fromRole role)
  | none => false

/-- Source `Acl::add_admin_unchecked`: sets the role's admin flag, stores and emits
`AdminAdded` only when the flag was not already present; returns whether the
account was newly added to the admins. -/
def Acl.add_admin_unchecked (acl : Acl) (pred : AccountId) (role : Role)
    (account_id : AccountId) : Bool × Acl × List AclEvent :=
  let flag := AclPermissions.fromAclAdmin role.admin
  let permissions := acl.get_or_init_permissions account_id
  let is_new_admin := !(permissions.contains flag)
  if is_new_admin then
    (is_new_admin,
     acl.storePermissions account_id (permissions.insert flag),
     [AclEvent.new_from_env .AdminAdded role account_id pred])
  else
    (is_new_admin, acl, [])

/-- Source `Acl::add_admin`: checked wrapper; `None` when the predecessor is not an
admin for `role`, otherwise delegates to the unchecked path. -/
def Acl.add_admin (acl : Acl) (pred : AccountId) (role : Role)
    (account_id : AccountId) : Option Bool × Acl × List AclEvent :=
  if !(acl.is_admin role pred) then
    (none, acl, [])
  else
    let r := acl.add_admin_unchecked pred role account_id
    (some r.1, r.2.1, r.2.2)

/-- Source `Acl::revoke_admin_unchecked`, translated literally: the source guards the
mutation with `if !was_admin` (note the negation), so the remove/store/emit
branch runs exactly when the account did NOT hold the admin flag. -/
def Acl.revoke_admin_unchecked (acl : Acl) (pred : AccountId) (role : Role)
    (account_id : AccountId) : Bool × Acl × List AclEvent :=
  let flag := AclPermissions.fromAclAdmin role.admin
  let permissions := acl.get_or_init_permissions account_id
  let was_admin := permissions.contains flag
  if !was_admin then
    (was_admin,
     acl.storePermissions account_id (permissions.remove flag),
     [AclEvent.new_from_env .AdminRevoked role account_id pred])
  else
    (was_admin, acl, [])

/-- Source `Acl::revoke_admin`: checked wrapper; `None` when the predecessor is not
an admin for `role`. -/
def Acl.revoke_admin (acl : Acl) (pred : AccountId) (role : Role)
    (account_id : AccountId) : Option Bool × Acl × List AclEvent :=
  if !(acl.is_admin role pred) then
    (none, acl, [])
  else
    let r := acl.revoke_admin_unchecked pred role account_id
    (some r.1, r.2.1, r.2.2)

/-- Source `Acl::renounce_admin`: unchecked revoke applied to the caller itself. -/
def Acl.renounce_admin (acl : Acl) (pred : AccountId) (role : Role) :
    Bool × Acl × List AclEvent :=
  acl.revoke_admin_unchecked pred role pred

/-- Source `Acl::grant_role_unchecked`: sets the role's grant flag, stores and emits
`RoleGranted` only when the flag was not already present. -/
def Acl.grant_role_unchecked (acl : Acl) (pred : AccountId) (role : Role)
    (account_id : AccountId) : Bool × Acl × List AclEvent :=
  let flag := AclPermissions.fromRole role
  let permissions := acl.get_or_init_permissions account_id
  let is_new_grantee := !(permissions.contains flag)
  if is_new_grantee then
    (is_new_grantee,
     acl.storePermissions account_id (permissions.insert flag),
     [AclEvent.new_from_env .RoleGranted role account_id pred])
  else
    (is_new_grantee, acl, [])

/-- Source `Acl::grant_role`: checked wrapper; `None` when the predecessor is not an
admin for `role`. -/
def Acl.grant_role (acl : Acl) (pred : AccountId) (role : Role)
    (account_id : AccountId) : Option Bool × Acl × List AclEvent :=
  if !(acl.is_admin role pred) then
    (none, acl, [])
  else
    let r := acl.grant_role_unchecked pred role account_id
    (some r.1, r.2.1, r.2.2)

/-- Source `Acl::revoke_role_unchecked`: clears the role's grant flag, stores and
emits `RoleRevoked` only when the flag was present; returns whether the
account was a grantee. -/
def Acl.revoke_role_unchecked (acl : Acl) (pred : AccountId) (role : Role)
    (account_id : AccountId) : Bool × Acl × List AclEvent :=
  let flag := AclPermissions.fromRole role
  let permissions := acl.get_or_init_permissions account_id
  let was_grantee := permissions.contains flag
  if was_grantee then
    (was_grantee,
     acl.storePermissions account_id (permissions.remove flag),
     [AclEvent.new_from_env .RoleRevoked role account_id pred])
  else
    (was_grantee, acl, [])

/-- Source `Acl::revoke_role`: checked wrapper; `None` when the predecessor is not an
admin for `role`. -/
def Acl.revoke_role (acl : Acl) (pred : AccountId) (role : Role)
    (account_id : AccountId) : Option Bool × Acl × List AclEvent :=
  if !(acl.is_admin role pred) then
    (none, acl, [])
  else
    let r := acl.revoke_role_unchecked pred role account_id
    (some r.1, r.2.1, r.2.2)

/-- Source `Acl::renounce_role`: unchecked revoke applied to the caller itself. -/
def Acl.renounce_role (acl : Acl) (pred : AccountId) (role : Role) :
    Bool × Acl × List AclEvent :=
  acl.revoke_role_unchecked pred role pred

/-- Source `Acl::check_any`: `require!(permissions.intersects(target), ...)` — fails
with a message naming the account and the required set when the stored mask
shares no bit with `target`. -/
def Acl.check_any (acl : Acl) (target : AclPermissions) (account_id : AccountId) :
    Except String Unit :=
  let permissions := acl.get_or_init_permissions account_id
  if permissions.intersects target then
    Except.ok ()
  else
    Except.error
      ("Account " ++ account_id ++ " has must have at least one role of " ++ toString target)

/-- Source `Acl::check_all`: `require!(permissions.contains(target), ...)` — fails
with a message naming the account and the required set when the stored mask
does not contain every bit of `target`. -/
def Acl.check_all (acl : Acl) (target : AclPermissions) (account_id : AccountId) :
    Except String Unit :=
  let permissions := acl.get_or_init_permissions account_id
  if permissions.contains target then
    Except.ok ()
  else
    Except.error ("Account " ++ account_id ++ " must have all roles in " ++ toString target)

/-- Source `struct Counter { counter: u64, acl: Acl }`. -/
structure Counter where
  counter : Nat
  acl : Acl

/-- Source `Counter::new`: bootstrap — seeds the caller as admin of every role via
`add_admin_unchecked`; also returns the events emitted while seeding. -/
def Counter.new (caller : AccountId) : Counter × List AclEvent :=
  let acl := Acl.new
  let s1 := acl.add_admin_unchecked caller Role.L1 caller
  let s2 := s1.2.1.add_admin_unchecked caller Role.L2 caller
  let s3 := s2.2.1.add_admin_unchecked caller Role.L3 caller
  (⟨0, s3.2.1⟩, s1.2.2 ++ s2.2.2 ++ s3.2.2)

/-- Number of events of a given kind in an emitted log. -/
def countEvents (id : AclEventId) (evs : List AclEvent) : Nat :=
  (evs.filter (fun e => e.event == id.name)).length

/-! ### Helper lemmas about the permission store and the bitmask operations -/

theorem store_get_self (acl : Acl) (a : AccountId) (p : AclPermissions) :
    (acl.storePermissions a p).permissions a = some p := by
  simp [Acl.storePermissions]

theorem store_get_ne (acl : Acl) (a b : AccountId) (p : AclPermissions) (h : b ≠ a) :
    (acl.storePermissions a p).permissions b = acl.permissions b := by
  simp [Acl.storePermissions, h]

theorem is_admin_store_ne (acl : Acl) (R : Role) (a b : AccountId) (p : AclPermissions)
    (h : b ≠ a) : (acl.storePermissions a p).is_admin R b = acl.is_admin R b := by
  unfold Acl.is_admin
  rw [store_get_ne acl a b p h]

/-- After `insert`, the inserted flag is contained. -/
theorem contains_insert_self (p f : AclPermissions) : (p.insert f).contains f = true := by
  simp only [AclPermissions.contains, AclPermissions.insert, beq_iff_eq]
  apply Nat.eq_of_testBit_eq
  intro i
  simp only [Nat.testBit_and, Nat.testBit_or]
  cases hp : p.testBit i <;> cases hf : f.testBit i <;> simp

/-- After `remove`, the removed flag is no longer contained, provided the flag
is a nonzero `u128` value (so that masking with the `u128` complement clears
it). -/
theorem remove_not_contains (p f : AclPermissions)
    (h0 : (AclPermissions.U128_MASK ^^^ f) &&& f = 0) (hf : f ≠ 0) :
    (p.remove f).contains f = false := by
  simp only [AclPermissions.contains, AclPermissions.remove, beq_eq_false_iff_ne, ne_eq]
  rw [Nat.land_assoc, h0]
  simp only [Nat.and_zero]
  exact fun e => hf e.symm

/-- Source `is_admin = false` means the stored (or default-empty) mask lacks the
role's admin flag. -/
theorem is_admin_false_not_contains (acl : Acl) (R : Role) (a : AccountId)
    (h : acl.is_admin R a = false) :
    (acl.get_or_init_permissions a).contains (AclPermissions.fromAclAdmin R.admin) = false := by
  unfold Acl.is_admin at h
  cases hp : acl.permissions a with
  | some p =>
      rw [hp] at h
      simp only [Bool.or_eq_false_iff] at h
      simp only [Acl.get_or_init_permissions, hp]
      exact h.2
  | none =>
      simp only [Acl.get_or_init_permissions, hp]
      cases R <;> decide

/-- Source `has_role = true` means there is a stored mask containing the role's
grant flag, and it is what `get_or_init_permissions` returns. -/
theorem has_role_true_contains (acl : Acl) (R : Role) (a : AccountId)
    (h : acl.has_role R a = true) :
    (acl.get_or_init_permissions a).contains (AclPermissions.fromRole R) = true := by
  unfold Acl.has_role at h
  cases hp : acl.permissions a with
  | some p =>
      rw [hp] at h
      simp only [Acl.get_or_init_permissions, hp]
      exact h
  | none => rw [hp] at h; exact absurd h Bool.false_ne_true

/-! ### Claim theorems -/

/-- C3: `is_admin(role, principal)` returns true iff the principal's stored
permission set (empty when no entry exists) contains the role's admin bit or
the super-admin bit; and a principal holding only the super-admin bit is an
admin of every role in the catalog. -/
theorem C3_is_admin_spec (acl : Acl) (R : Role) (a : AccountId) :
    (acl.is_admin R a =
      ((acl.get_or_init_permissions a).contains AclPermissions.SUPER_ADMIN ||
       (acl.get_or_init_permissions a).contains (AclPermissions.fromAclAdmin R.admin))) ∧
    (Acl.new.storePermissions a AclPermissions.SUPER_ADMIN).is_admin R a = true := by
  constructor
  · unfold Acl.is_admin
    cases hp : acl.permissions a with
    | some p => simp only [Acl.get_or_init_permissions, hp]
    | none =>
        simp only [Acl.get_or_init_permissions, hp]
        cases R <;> decide
  · unfold Acl.is_admin
    rw [store_get_self]
    cases R <;> decide

/-- C10: `check_any` with an empty required set always aborts, while
`check_all` with an empty required set always succeeds — for every stored
state, including a principal holding every defined permission bit. -/
theorem C10_empty_required (acl : Acl) (a : AccountId) :
    ((acl.check_any AclPermissions.empty a).isOk = false ∧
     (acl.check_all AclPermissions.empty a).isOk = true) ∧
    (((Acl.new.storePermissions a 0b01111111).check_any AclPermissions.empty a).isOk = false ∧
     ((Acl.new.storePermissions a 0b01111111).check_all AclPermissions.empty a).isOk = true) := by
  have hany : ∀ (acl2 : Acl), (acl2.check_any AclPermissions.empty a).isOk = false := by
    intro acl2
    simp [Acl.check_any, AclPermissions.intersects, AclPermissions.empty, Except.isOk,
      Except.toBool]
  have hall : ∀ (acl2 : Acl), (acl2.check_all AclPermissions.empty a).isOk = true := by
    intro acl2
    simp [Acl.check_all, AclPermissions.contains, AclPermissions.empty, Except.isOk,
      Except.toBool]
  exact ⟨⟨hany acl, hall acl⟩, hany _, hall _⟩

/-- C5: `check_any` aborts exactly when the principal's permission set shares
no bit with the required set, and `check_all` aborts exactly when the
principal's set is not a superset of the required set; neither returns a new
state or events (they are pure guards by type). On abort `check_any` reports
a message naming the principal and the required set. For a principal holding
only role L1's grant bit, `check_any {L1, L2}` succeeds while
`check_all {L1, L2}` aborts. -/
theorem C5_guards (acl : Acl) (target : AclPermissions) (a : AccountId) :
    ((acl.check_any target a).isOk = false ↔
      acl.get_or_init_permissions a &&& target = 0) ∧
    ((acl.check_any target a).isOk = false →
      acl.check_any target a = Except.error
        ("Account " ++ a ++ " has must have at least one role of " ++ toString target)) ∧
    ((acl.check_all target a).isOk = true ↔
      acl.get_or_init_permissions a &&& target = target) ∧
    (((Acl.new.storePermissions a (AclPermissions.fromRole Role.L1)).check_any
        (AclPermissions.fromRole Role.L1 ||| AclPermissions.fromRole Role.L2) a).isOk = true ∧
     ((Acl.new.storePermissions a (AclPermissions.fromRole Role.L1)).check_all
        (AclPermissions.fromRole Role.L1 ||| AclPermissions.fromRole Role.L2) a).isOk = false) := by
  refine ⟨?_, ?_, ?_, ?_, ?_⟩
  · simp only [Acl.check_any, AclPermissions.intersects]
    split
    · rename_i hcond
      simp only [bne_iff_ne, ne_eq] at hcond
      simp [Except.isOk, Except.toBool, hcond]
    · rename_i hcond
      simp only [bne_iff_ne, ne_eq, Decidable.not_not] at hcond
      simp [Except.isOk, Except.toBool, hcond]
  · simp only [Acl.check_any, AclPermissions.intersects]
    split
    · simp [Except.isOk, Except.toBool]
    · simp
  · simp only [Acl.check_all, AclPermissions.contains]
    split
    · rename_i hcond
      simp only [beq_iff_eq] at hcond
      simp [Except.isOk, Except.toBool, hcond]
    · rename_i hcond
      simp only [beq_iff_eq] at hcond
      simp [Except.isOk, Except.toBool, hcond]
  · simp only [Acl.check_any, Acl.get_or_init_permissions, store_get_self]
    rw [if_pos (by decide)]
    rfl
  · simp only [Acl.check_all, Acl.get_or_init_permissions, store_get_self]
    rw [if_neg (by decide)]
    rfl

/-- C6: after construction of the engine by principal P (bootstrap seeding of
P as admin of every role via `add_admin_unchecked`), P is an admin of every
role in the catalog and holds no role. -/
theorem C6_bootstrap (caller : AccountId) (R : Role) :
    (Counter.new caller).1.acl.is_admin R caller = true ∧
    (Counter.new caller).1.acl.has_role R caller = false := by
  have hstate : (Counter.new caller).1.acl.permissions caller = some 0b01010100 := by
    simp [Counter.new, Acl.new, Acl.add_admin_unchecked, Acl.get_or_init_permissions,
      Acl.storePermissions, AclPermissions.contains, AclPermissions.insert,
      AclPermissions.fromAclAdmin, Role.admin, AclAdmin.fromRole, AclAdmin.ord,
      AclPermissions.empty]
  constructor
  · unfold Acl.is_admin
    rw [hstate]
    cases R <;> decide
  · unfold Acl.has_role
    rw [hstate]
    cases R <;> decide

/-- C1: evaluation of `revoke_admin_unchecked` at concrete inputs. The source
guards the mutation with `if !was_admin`, so for an account that IS an admin
the call returns `true` but leaves the admin bit set (the account stays admin)
and emits nothing, while for an account that is NOT an admin it returns
`false` and emits a spurious `AdminRevoked` event — the opposite of the
claimed behaviour on both branches. -/
theorem C1_revoke_admin_unchecked_eval :
    (((Acl.new.storePermissions "alice" AclPermissions.L1_ADMIN).revoke_admin_unchecked
        "alice" Role.L1 "alice").1 = true ∧
     ((Acl.new.storePermissions "alice" AclPermissions.L1_ADMIN).revoke_admin_unchecked
        "alice" Role.L1 "alice").2.1.is_admin Role.L1 "alice" = true ∧
     ((Acl.new.storePermissions "alice" AclPermissions.L1_ADMIN).revoke_admin_unchecked
        "alice" Role.L1 "alice").2.2 = []) ∧
    ((Acl.new.revoke_admin_unchecked "carol" Role.L1 "bob").1 = false ∧
     (Acl.new.revoke_admin_unchecked "carol" Role.L1 "bob").2.2 =
       [AclEvent.new_from_env AclEventId.AdminRevoked Role.L1 "bob" "carol"]) := by
  decide

/-- One call against the engine; the four unchecked mutations are the only
code paths that emit events. -/
inductive Op
  | addAdminUnchecked (pred : AccountId) (role : Role) (target : AccountId)
  | revokeAdminUnchecked (pred : AccountId) (role : Role) (target : AccountId)
  | grantRoleUnchecked (pred : AccountId) (role : Role) (target : AccountId)
  | revokeRoleUnchecked (pred : AccountId) (role : Role) (target : AccountId)

/-- Execute one call. -/
def Op.apply (acl : Acl) : Op → Bool × Acl × List AclEvent
  | .addAdminUnchecked pred role target => acl.add_admin_unchecked pred role target
  | .revokeAdminUnchecked pred role target => acl.revoke_admin_unchecked pred role target
  | .grantRoleUnchecked pred role target => acl.grant_role_unchecked pred role target
  | .revokeRoleUnchecked pred role target => acl.revoke_role_unchecked pred role target

/-- The account whose permission bit the call manipulates. -/
def Op.target : Op → AccountId
  | .addAdminUnchecked _ _ t => t
  | .revokeAdminUnchecked _ _ t => t
  | .grantRoleUnchecked _ _ t => t
  | .revokeRoleUnchecked _ _ t => t

/-- The permission bit the call manipulates: the role's admin flag for admin
calls, the role's grant flag for role calls. -/
def Op.flag : Op → AclPermissions
  | .addAdminUnchecked _ role _ => AclPermissions.fromAclAdmin role.admin
  | .revokeAdminUnchecked _ role _ => AclPermissions.fromAclAdmin role.admin
  | .grantRoleUnchecked _ role _ => AclPermissions.fromRole role
  | .revokeRoleUnchecked _ role _ => AclPermissions.fromRole role

/-- The kind of event the call is supposed to emit on an actual bit flip. -/
def Op.eventId : Op → AclEventId
  | .addAdminUnchecked _ _ _ => .AdminAdded
  | .revokeAdminUnchecked _ _ _ => .AdminRevoked
  | .grantRoleUnchecked _ _ _ => .RoleGranted
  | .revokeRoleUnchecked _ _ _ => .RoleRevoked

/-- Run a sequence of calls, collecting all emitted events in order. -/
def run (acl : Acl) : List Op → Acl × List AclEvent
  | [] => (acl, [])
  | op :: rest =>
      let s := op.apply acl
      let r := run s.2.1 rest
      (r.1, s.2.2 ++ r.2)

/-- Number of calls in the sequence, among those of the kind emitting `id`,
whose corresponding permission bit actually changed state. -/
def countTransitions (acl : Acl) (id : AclEventId) : List Op → Nat
  | [] => 0
  | op :: rest =>
      let s := op.apply acl
      let flipped :=
        (acl.get_or_init_permissions op.target).contains op.flag !=
          (s.2.1.get_or_init_permissions op.target).contains op.flag
      (if op.eventId = id ∧ flipped = true then 1 else 0) + countTransitions s.2.1 id rest

/-- C2: evaluation of a one-call sequence at which the event-count invariant
fails. From a fresh engine, the single call
`revoke_admin_unchecked(L1, "alice")` flips no permission bit ("alice" was
not an admin), yet one `AdminRevoked` event is emitted — the count of
`AdminRevoked` events (1) differs from the count of calls with an actual bit
transition (0). -/
theorem C2_event_count_eval :
    countEvents AclEventId.AdminRevoked
      (run Acl.new [Op.revokeAdminUnchecked "carol" Role.L1 "alice"]).2 = 1 ∧
    countTransitions Acl.new AclEventId.AdminRevoked
      [Op.revokeAdminUnchecked "carol" Role.L1 "alice"] = 0 := by
  decide

/-- The full role catalog, in ordinal order. -/
def catalogRoles : List Role := [.L1, .L2, .L3]

/-- C9 counterexample: the claim puts the admin bit of the role with ordinal
`o` at position `2·o`, but for role L1 (ordinal 0) the code computes the admin
flag `1 << 2`, not `1 << 0` (position 0 is the super-admin bit, since
`AclAdmin::Super` has discriminant 0 and role admins start at discriminant 1). -/
theorem C9_admin_bit_2o_counterexample :
    ¬ (AclPermissions.fromAclAdmin Role.L1.admin = 1 <<< (2 * Role.L1.ord)) := by
  decide

/-- C9 amended: for the role with ordinal `o`, the grant bit is at position
`2·o + 1` and the admin bit at position `2·o + 2` (i.e. `2·(o+1)`, because
`AclAdmin::Super` occupies discriminant 0); the super-admin bit is at
position 0, strictly below every role bit; and the whole assignment is
injective — the seven flag values are pairwise distinct. -/
theorem C9_bit_assignment (r : Role) :
    (AclPermissions.fromRole r = 1 <<< (2 * r.ord + 1) ∧
     AclPermissions.fromAclAdmin r.admin = 1 <<< (2 * r.ord + 2) ∧
     AclPermissions.fromAclAdmin AclAdmin.Super = 1 <<< 0 ∧
     0 < 2 * r.ord + 1 ∧ 0 < 2 * r.ord + 2) ∧
    (AclPermissions.fromAclAdmin AclAdmin.Super ::
      (catalogRoles.map AclPermissions.fromRole ++
       catalogRoles.map (fun r2 => AclPermissions.fromAclAdmin r2.admin))).Nodup := by
  cases r <;> exact ⟨by decide, by decide⟩

/-- C4: when the caller is not an admin for the role, every checked mutation
returns the `None` sentinel, leaves the whole permission state unchanged and
emits no event; and the sentinel is distinguishable from the applied-but-no-op
result `Some(false)`. -/
theorem C4_unauthorized_noop (acl : Acl) (pred : AccountId) (R : Role) (x : AccountId)
    (h : acl.is_admin R pred = false) :
    acl.add_admin pred R x = (none, acl, []) ∧
    acl.revoke_admin pred R x = (none, acl, []) ∧
    acl.grant_role pred R x = (none, acl, []) ∧
    acl.revoke_role pred R x = (none, acl, []) ∧
    (none : Option Bool) ≠ some false := by
  refine ⟨?_, ?_, ?_, ?_, by simp⟩ <;>
    simp [Acl.add_admin, Acl.revoke_admin, Acl.grant_role, Acl.revoke_role, h]

/-- Witness for C4 at a concrete input: on a fresh engine, "carol" is not an
admin of L1, and all four checked mutations targeting "dave" are rejected
with no effect. -/
theorem C4_unauthorized_noop_witness :
    Acl.new.is_admin Role.L1 "carol" = false ∧
    (Acl.new.add_admin "carol" Role.L1 "dave" = (none, Acl.new, []) ∧
     Acl.new.revoke_admin "carol" Role.L1 "dave" = (none, Acl.new, []) ∧
     Acl.new.grant_role "carol" Role.L1 "dave" = (none, Acl.new, []) ∧
     Acl.new.revoke_role "carol" Role.L1 "dave" = (none, Acl.new, []) ∧
     (none : Option Bool) ≠ some false) :=
  ⟨by decide, C4_unauthorized_noop Acl.new "carol" Role.L1 "dave" (by decide)⟩

/-- C7: for an admin A of role R and a principal X who is not an admin of R,
calling `add_admin(R, X)` as A twice returns `Some(true)` then `Some(false)`,
and exactly one `AdminAdded` event is emitted across the two calls. -/
theorem C7_add_admin_twice (acl : Acl) (A X : AccountId) (R : Role)
    (hA : acl.is_admin R A = true) (hX : acl.is_admin R X = false) :
    (acl.add_admin A R X).1 = some true ∧
    ((acl.add_admin A R X).2.1.add_admin A R X).1 = some false ∧
    countEvents AclEventId.AdminAdded
      ((acl.add_admin A R X).2.2 ++ ((acl.add_admin A R X).2.1.add_admin A R X).2.2) = 1 := by
  have hAX : A ≠ X := by
    intro e
    rw [e, hX] at hA
    exact Bool.false_ne_true hA
  have hcont := is_admin_false_not_contains acl R X hX
  have h1 : acl.add_admin A R X =
      (some true,
       acl.storePermissions X
         ((acl.get_or_init_permissions X).insert (AclPermissions.fromAclAdmin R.admin)),
       [AclEvent.new_from_env .AdminAdded R X A]) := by
    simp [Acl.add_admin, Acl.add_admin_unchecked, hA, hcont]
  have h2 : (acl.storePermissions X
      ((acl.get_or_init_permissions X).insert
        (AclPermissions.fromAclAdmin R.admin))).is_admin R A = true := by
    rw [is_admin_store_ne _ _ _ _ _ hAX]
    exact hA
  have h3 : (acl.storePermissions X
      ((acl.get_or_init_permissions X).insert
        (AclPermissions.fromAclAdmin R.admin))).get_or_init_permissions X =
      (acl.get_or_init_permissions X).insert (AclPermissions.fromAclAdmin R.admin) := by
    simp [Acl.get_or_init_permissions, store_get_self]
  have h4 : (acl.storePermissions X
      ((acl.get_or_init_permissions X).insert
        (AclPermissions.fromAclAdmin R.admin))).add_admin A R X =
      (some false,
       acl.storePermissions X
         ((acl.get_or_init_permissions X).insert (AclPermissions.fromAclAdmin R.admin)),
       []) := by
    simp [Acl.add_admin, Acl.add_admin_unchecked, h2, h3, contains_insert_self]
  refine ⟨by rw [h1], ?_, ?_⟩
  · rw [h1]
    simp only []
    rw [h4]
  · rw [h1]
    simp only []
    rw [h4]
    simp [countEvents, AclEvent.new_from_env, AclEventId.name]

/-- Witness for C7 at a concrete input: "alice" holds the L1 admin flag,
"bob" holds nothing; "alice" adds "bob" as L1 admin twice. -/
theorem C7_add_admin_twice_witness :
    ((Acl.new.storePermissions "alice" AclPermissions.L1_ADMIN).is_admin Role.L1 "alice" = true ∧
     (Acl.new.storePermissions "alice" AclPermissions.L1_ADMIN).is_admin Role.L1 "bob" = false) ∧
    (((Acl.new.storePermissions "alice" AclPermissions.L1_ADMIN).add_admin
        "alice" Role.L1 "bob").1 = some true ∧
     (((Acl.new.storePermissions "alice" AclPermissions.L1_ADMIN).add_admin
        "alice" Role.L1 "bob").2.1.add_admin "alice" Role.L1 "bob").1 = some false ∧
     countEvents AclEventId.AdminAdded
       (((Acl.new.storePermissions "alice" AclPermissions.L1_ADMIN).add_admin
           "alice" Role.L1 "bob").2.2 ++
        (((Acl.new.storePermissions "alice" AclPermissions.L1_ADMIN).add_admin
            "alice" Role.L1 "bob").2.1.add_admin "alice" Role.L1 "bob").2.2) = 1) :=
  ⟨⟨by decide, by decide⟩,
   C7_add_admin_twice (Acl.new.storePermissions "alice" AclPermissions.L1_ADMIN)
     "alice" "bob" Role.L1 (by decide) (by decide)⟩

/-- C8: a principal X who holds role R and calls `renounce_role(R)` gets
`true` back, and afterwards `has_role(R, X)` is false: grant followed by
renounce round-trips that bit to the ungranted state. -/
theorem C8_renounce_role (acl : Acl) (X : AccountId) (R : Role)
    (h : acl.has_role R X = true) :
    (acl.renounce_role X R).1 = true ∧
    (acl.renounce_role X R).2.1.has_role R X = false := by
  have hcont := has_role_true_contains acl R X h
  have h1 : acl.renounce_role X R =
      (true,
       acl.storePermissions X
         ((acl.get_or_init_permissions X).remove (AclPermissions.fromRole R)),
       [AclEvent.new_from_env .RoleRevoked R X X]) := by
    simp [Acl.renounce_role, Acl.revoke_role_unchecked, hcont]
  have hmask : (AclPermissions.U128_MASK ^^^ AclPermissions.fromRole R) &&&
      AclPermissions.fromRole R = 0 := by
    cases R <;> decide
  have hf : AclPermissions.fromRole R ≠ 0 := by
    cases R <;> decide
  refine ⟨by rw [h1], ?_⟩
  rw [h1]
  simp only [Acl.has_role, store_get_self]
  exact remove_not_contains _ _ hmask hf

/-- Witness for C8 at a concrete input: "bob" holds the L1 grant flag and
renounces role L1. -/
theorem C8_renounce_role_witness :
    (Acl.new.storePermissions "bob" AclPermissions.L1).has_role Role.L1 "bob" = true ∧
    (((Acl.new.storePermissions "bob" AclPermissions.L1).renounce_role "bob" Role.L1).1 = true ∧
     ((Acl.new.storePermissions "bob" AclPermissions.L1).renounce_role
        "bob" Role.L1).2.1.has_role Role.L1 "bob" = false) :=
  ⟨by decide,
   C8_renounce_role (Acl.new.storePermissions "bob" AclPermissions.L1) "bob" Role.L1 (by decide)⟩

end AclExample
